import Mathlib

/-!
Verification development for the imap-proto-server codec.

The repository provides `src/parse/command.rs` (the IMAP command grammar),
`src/types/body.rs` (body-structure data model and serializers) and a fuzz
target asserting the parse/serialize round trip.  Those files are embedded
here faithfully.  Lexical primitives (`atom`, `astring`, `number`,
`date-time`, ...) and the string/envelope serializers live in repository
files that are not available; they are modelled from the specification and
marked as such in their doc comments.

Parsers are pure functions from byte lists to a result that mirrors the
nom streaming interface: success with remaining input, a recoverable
error, an "incomplete" failure (more input needed), or a panic (Rust
`unwrap()` / `unreachable!()`), which is never caught by combinators.
-/

namespace Imap

/-- Bytes of an ASCII string, the form in which all inputs are written. -/
def str2b (s : String) : List Nat := s.data.map Char.toNat

/-- Result of running a parser: mirrors nom's `IResult` in streaming mode,
with an extra `panic` outcome modelling Rust panics (`unwrap`,
`unreachable!`), which no combinator recovers from. -/
inductive PResult (α : Type) where
  | ok (rest : List Nat) (val : α)
  | error
  | incomplete
  | panic

/-- A parser consumes a prefix of the input bytes. -/
abbrev Parser (α : Type) := List Nat → PResult α

/-- Sequencing: run the continuation on success, propagate failures. -/
def PResult.and {α β : Type} (r : PResult α) (f : List Nat → α → PResult β) : PResult β :=
  match r with
  | .ok rest v => f rest v
  | .error => .error
  | .incomplete => .incomplete
  | .panic => .panic

/-- nom's `alt` on two branches: the second is tried only on a recoverable
error; `Incomplete` and panics propagate immediately. -/
def palt {α : Type} (p q : Parser α) : Parser α := fun input =>
  match p input with
  | .error => q input
  | r => r

/-- nom's `opt`: recoverable error yields `none` without consuming input. -/
def popt {α : Type} (p : Parser α) : Parser (Option α) := fun input =>
  match p input with
  | .ok rest v => .ok rest (some v)
  | .error => .ok input none
  | .incomplete => .incomplete
  | .panic => .panic

/-- nom's `map`. -/
def pmap {α β : Type} (p : Parser α) (f : α → β) : Parser β := fun input =>
  (p input).and fun rest v => .ok rest (f v)

/-- nom's `value`. -/
def pvalue {α β : Type} (c : β) (p : Parser α) : Parser β := fun input =>
  (p input).and fun rest _ => .ok rest c

/-- nom's `map_opt`: a `none` result is a recoverable error. -/
def pmapOpt {α β : Type} (p : Parser α) (f : α → Option β) : Parser β := fun input =>
  (p input).and fun rest v =>
    match f v with
    | some w => .ok rest w
    | none => .error

/-- nom's streaming `tag`: byte-exact keyword; too-short input is
`Incomplete`, a mismatch is an error. -/
def tagB (t : List Nat) : Parser Unit := fun input =>
  match t, input with
  | [], rest => .ok rest ()
  | _ :: _, [] => .incomplete
  | c :: cs, b :: bs => if b = c then tagB cs bs else .error

/-- ASCII lower-casing of one byte. -/
def lowerByte (b : Nat) : Nat := if 65 ≤ b ∧ b ≤ 90 then b + 32 else b

/-- nom's streaming `tag_no_case` restricted to ASCII. -/
def tagNoCase (t : List Nat) : Parser Unit := fun input =>
  match t, input with
  | [], rest => .ok rest ()
  | _ :: _, [] => .incomplete
  | c :: cs, b :: bs => if lowerByte b = lowerByte c then tagNoCase cs bs else .error

/-- Longest prefix of bytes satisfying `p`, with the rest. -/
def spanBytes (p : Nat → Bool) : List Nat → (List Nat × List Nat)
  | [] => ([], [])
  | b :: bs =>
    if p b then
      let s := spanBytes p bs
      (b :: s.1, s.2)
    else ([], b :: bs)

/-- nom's streaming `take_while1`: at least one byte must match; running to
the end of input is `Incomplete` (the token might continue). -/
def takeWhile1 (p : Nat → Bool) : Parser (List Nat) := fun input =>
  match spanBytes p input with
  | (_, []) => .incomplete
  | ([], _) => .error
  | (tok, rest) => .ok rest tok

/-- Exactly `n` raw bytes; fewer available is `Incomplete`. -/
def takeBytes (n : Nat) : Parser (List Nat) := fun input =>
  if input.length < n then .incomplete
  else .ok (input.drop n) (input.take n)

/-- Tail of nom's `separated_list` with explicit fuel: repeatedly a
separator then an element; a failing separator or element ends the list
(backtracking over a consumed separator, as nom does). -/
def sepTailF {α : Type} (sep : Parser Unit) (f : Parser α) : Nat → Parser (List α)
  | 0 => fun input => .ok input []
  | fuel + 1 => fun input =>
    match sep input with
    | .ok r1 _ =>
      match f r1 with
      | .ok r2 v => (sepTailF sep f fuel r2).and fun r3 vs => .ok r3 (v :: vs)
      | .error => .ok input []
      | .incomplete => .incomplete
      | .panic => .panic
    | .error => .ok input []
    | .incomplete => .incomplete
    | .panic => .panic

/-- nom's `separated_nonempty_list`: the first element is mandatory. -/
def sepNonF {α : Type} (fuel : Nat) (sep : Parser Unit) (f : Parser α) : Parser (List α) :=
  fun input =>
    (f input).and fun r v => (sepTailF sep f fuel r).and fun r2 vs => .ok r2 (v :: vs)

/-- nom's `separated_list`: possibly empty; a recoverable error on the
first element yields the empty list. -/
def sepListF {α : Type} (fuel : Nat) (sep : Parser Unit) (f : Parser α) : Parser (List α) :=
  fun input =>
    match f input with
    | .ok r v => (sepTailF sep f fuel r).and fun r2 vs => .ok r2 (v :: vs)
    | .error => .ok input []
    | .incomplete => .incomplete
    | .panic => .panic

/-- Tail of nom's `many1` with explicit fuel. -/
def manyTailF {α : Type} (f : Parser α) : Nat → Parser (List α)
  | 0 => fun input => .ok input []
  | fuel + 1 => fun input =>
    match f input with
    | .ok r v => (manyTailF f fuel r).and fun r2 vs => .ok r2 (v :: vs)
    | .error => .ok input []
    | .incomplete => .incomplete
    | .panic => .panic

/-- nom's `many1`: at least one element. -/
def many1F {α : Type} (fuel : Nat) (f : Parser α) : Parser (List α) := fun input =>
  (f input).and fun r v => (manyTailF f fuel r).and fun r2 vs => .ok r2 (v :: vs)

/-! ### Lexical primitives

Modelled from the spec: `src/parse/core.rs`, `src/parse/datetime.rs`,
`src/parse/base64.rs`, `src/parse/flag.rs`, `src/parse/mailbox.rs`,
`src/parse/sequence.rs`, `src/parse/status.rs` and `src/parse/section.rs`
are not in the provided sources; each parser below follows spec section
4.1 (lexical primitives) and RFC 3501's token classes quoted there. -/

/-- Modelled from the spec: ATOM-CHAR is ASCII printable excluding
`( ) { % * " \ ]` and control/SP. -/
def isAtomChar (b : Nat) : Bool :=
  decide (33 ≤ b) && decide (b ≤ 126) &&
    !([40, 41, 123, 37, 42, 34, 92, 93].contains b)

/-- Modelled from the spec: ASTRING-CHAR is ATOM-CHAR plus `]`. -/
def isAstringChar (b : Nat) : Bool := isAtomChar b || b = 93

/-- Modelled from the spec: a tag is atom-like excluding `+`. -/
def isTagChar (b : Nat) : Bool := isAstringChar b && b ≠ 43

def isDigit (b : Nat) : Bool := decide (48 ≤ b) && decide (b ≤ 57)

def isAlpha (b : Nat) : Bool :=
  (decide (65 ≤ b) && decide (b ≤ 90)) || (decide (97 ≤ b) && decide (b ≤ 122))

/-- Modelled from the spec: single space. -/
def sp : Parser Unit := tagB [32]

/-- Modelled from the spec: CRLF line terminator. -/
def crlf : Parser Unit := tagB [13, 10]

/-- Modelled from the spec: one or more ATOM-CHAR. -/
def atom : Parser (List Nat) := takeWhile1 isAtomChar

/-- Modelled from the spec: a command tag token. -/
def tag_imap : Parser (List Nat) := takeWhile1 isTagChar

def digitsToNat (l : List Nat) : Nat := l.foldl (fun acc b => acc * 10 + (b - 48)) 0

/-- Modelled from the spec: `number` is an unsigned 32-bit decimal. -/
def number : Parser Nat := fun input =>
  (takeWhile1 isDigit input).and fun rest ds =>
    let n := digitsToNat ds
    if n < 4294967296 then .ok rest n else .error

/-- Modelled from the spec: `nz-number` additionally rejects 0. -/
def nzNumber : Parser Nat := fun input =>
  (number input).and fun rest n => if n = 0 then .error else .ok rest n

/-- Inside of a quoted string after the opening quote: bytes other than
CR/LF/NUL, with `\"` and `\\` unescaping, up to the closing quote. -/
def quotedInner : List Nat → PResult (List Nat)
  | [] => .incomplete
  | 34 :: rest => .ok rest []
  | 92 :: [] => .incomplete
  | 92 :: c :: rest =>
    if c = 34 || c = 92 then
      match quotedInner rest with
      | .ok r v => .ok r (c :: v)
      | r => r
    else .error
  | c :: rest =>
    if c = 13 || c = 10 || c = 0 then .error
    else
      match quotedInner rest with
      | .ok r v => .ok r (c :: v)
      | r => r

/-- Modelled from the spec: the quoted string form. -/
def quoted : Parser (List Nat) := fun input =>
  (tagB [34] input).and fun r _ => quotedInner r

/-- Modelled from the spec: `{N}CRLF` followed by exactly N bytes; a
shortage is the distinguished `Incomplete` failure. -/
def literal : Parser (List Nat) := fun input =>
  (tagB [123] input).and fun r1 _ =>
  (number r1).and fun r2 n =>
  (tagB [125] r2).and fun r3 _ =>
  (crlf r3).and fun r4 _ =>
  takeBytes n r4

/-- The `IString` data-model type: quoted or literal string form. -/
inductive IString where
  | quoted (s : List Nat)
  | literal (s : List Nat)

/-- The `NString` data-model type: `IString` or NIL. -/
inductive NString where
  | nil
  | string (s : IString)

/-- The `AString` data-model type: atom or `IString`. -/
inductive AString where
  | atom (s : List Nat)
  | string (s : IString)

def istringBytes : IString → List Nat
  | .quoted s => s
  | .literal s => s

def astringBytes : AString → List Nat
  | .atom s => s
  | .string s => istringBytes s

/-- Modelled from the spec: `IString` = quoted / literal. -/
def istring : Parser IString :=
  palt (pmap quoted IString.quoted) (pmap literal IString.literal)

/-- Modelled from the spec: `AString` = 1*ASTRING-CHAR / IString. -/
def astring : Parser AString :=
  palt (pmap (takeWhile1 isAstringChar) AString.atom) (pmap istring AString.string)

/-- Mailbox data-model value: `INBOX` is recognized case-insensitively. -/
inductive Mailbox where
  | inbox
  | other (a : AString)

/-- Modelled from the spec: a mailbox name is an astring, with `INBOX`
mapped to the dedicated variant. -/
def mailbox : Parser Mailbox := fun input =>
  (astring input).and fun r a =>
    if (astringBytes a).map lowerByte = str2b "inbox" then .ok r Mailbox.inbox
    else .ok r (Mailbox.other a)

/-- Modelled from the spec: `list-mailbox` additionally permits the
wildcards `%` and `*`. -/
def isListChar (b : Nat) : Bool := isAtomChar b || b = 37 || b = 42

/-- Modelled from the spec: wildcard-bearing mailbox argument of
LIST/LSUB. -/
def list_mailbox : Parser AString :=
  palt (pmap (takeWhile1 isListChar) AString.atom) (pmap istring AString.string)

/-- STATUS attribute data-model values. -/
inductive StatusAtt where
  | messages
  | recent
  | uidNext
  | uidValidity
  | unseen

/-- Modelled from the spec: the five STATUS attributes, case-insensitive. -/
def status_att : Parser StatusAtt :=
  palt (pvalue StatusAtt.messages (tagNoCase (str2b "MESSAGES")))
  (palt (pvalue StatusAtt.recent (tagNoCase (str2b "RECENT")))
  (palt (pvalue StatusAtt.uidNext (tagNoCase (str2b "UIDNEXT")))
  (palt (pvalue StatusAtt.uidValidity (tagNoCase (str2b "UIDVALIDITY")))
        (pvalue StatusAtt.unseen (tagNoCase (str2b "UNSEEN"))))))

/-- Flag data-model value: system flags start with a backslash, keywords
are bare atoms. -/
inductive Flag where
  | system (name : List Nat)
  | keyword (name : List Nat)

/-- Modelled from the spec: an IMAP flag token. -/
def flag : Parser Flag := fun input =>
  match input with
  | 92 :: rest => (atom rest).and fun r a => .ok r (Flag.system a)
  | _ => (atom input).and fun r a => .ok r (Flag.keyword a)

/-- Modelled from the spec: `flag-list = "(" [flag *(SP flag)] ")"`. -/
def flag_list : Parser (List Flag) := fun input =>
  (tagB [40] input).and fun r1 _ =>
  (sepListF r1.length sp flag r1).and fun r2 fs =>
  (tagB [41] r2).and fun r3 _ => .ok r3 fs

/-- A sequence number: positive value or `*` (largest in mailbox). -/
inductive SeqNo where
  | value (n : Nat)
  | largest

/-- One range of a sequence set. -/
inductive Sequence where
  | single (s : SeqNo)
  | range (a b : SeqNo)

/-- Modelled from the spec: `seq-number = nz-number / "*"`. -/
def seqNo : Parser SeqNo :=
  palt (pvalue SeqNo.largest (tagB [42])) (pmap nzNumber SeqNo.value)

/-- Modelled from the spec: `seq-range = seq-number [":" seq-number]`. -/
def seqRange : Parser Sequence := fun input =>
  (seqNo input).and fun r a =>
    match tagB [58] r with
    | .ok r2 _ => (seqNo r2).and fun r3 b => .ok r3 (Sequence.range a b)
    | .error => .ok r (Sequence.single a)
    | .incomplete => .incomplete
    | .panic => .panic

/-- Modelled from the spec: a comma-separated non-empty list of ranges. -/
def sequence_set : Parser (List Sequence) := fun input =>
  sepNonF input.length (tagB [44]) seqRange input

/-- Modelled from the spec: a charset name (atom or quoted). -/
def charset : Parser (List Nat) := palt atom quoted

/-- A calendar date as carried in the data model. -/
structure Date where
  day : Nat
  month : Nat
  year : Nat

def isLeapYear (y : Nat) : Bool :=
  (decide (y % 4 = 0) && decide (y % 100 ≠ 0)) || decide (y % 400 = 0)

def daysInMonth (m y : Nat) : Nat :=
  if m = 2 then (if isLeapYear y then 29 else 28)
  else if m = 4 ∨ m = 6 ∨ m = 9 ∨ m = 11 then 30
  else 31

/-- `none` when the day is out of range for the month: the nominally
invalid calendar dates of the spec's open question. -/
def mkDate (d m y : Nat) : Option Date :=
  if 1 ≤ d ∧ d ≤ daysInMonth m y then some ⟨d, m, y⟩ else none

def monthFromBytes (l : List Nat) : Option Nat :=
  let s := l.map lowerByte
  if s = str2b "jan" then some 1
  else if s = str2b "feb" then some 2
  else if s = str2b "mar" then some 3
  else if s = str2b "apr" then some 4
  else if s = str2b "may" then some 5
  else if s = str2b "jun" then some 6
  else if s = str2b "jul" then some 7
  else if s = str2b "aug" then some 8
  else if s = str2b "sep" then some 9
  else if s = str2b "oct" then some 10
  else if s = str2b "nov" then some 11
  else if s = str2b "dec" then some 12
  else none

/-- Modelled from the spec: `date` parses `dd-mon-yyyy` (month names
case-insensitive); a grammar match with an out-of-range day yields the
value `none`, mirroring the `Option` the source unwraps or `map_opt`s. -/
def date : Parser (Option Date) := fun input =>
  (takeWhile1 isDigit input).and fun r1 ds =>
  if ds.length = 0 ∨ 2 < ds.length then .error else
  (tagB [45] r1).and fun r2 _ =>
  (takeWhile1 isAlpha r2).and fun r3 ms =>
  if ms.length ≠ 3 then .error else
  match monthFromBytes ms with
  | none => .error
  | some mo =>
    (tagB [45] r3).and fun r4 _ =>
    (takeWhile1 isDigit r4).and fun r5 ys =>
    if ys.length ≠ 4 then .error else
    .ok r5 (mkDate (digitsToNat ds) mo (digitsToNat ys))

/-- As used by the search keys: `map_opt(date, |d| d)` requires validity. -/
def dateSome : Parser Date := pmapOpt date id

/-- A date-time as carried in the data model. -/
structure DateTime where
  date : Date
  hour : Nat
  minute : Nat
  second : Nat
  zoneNegative : Bool
  zone : Nat

/-- One decimal digit byte. -/
def digitByte : Parser Nat := fun input =>
  match input with
  | [] => .incomplete
  | b :: bs => if isDigit b then .ok bs (b - 48) else .error

/-- Day inside date-time: space-padded or two digits (strict width 2). -/
def dtDay : Parser Nat := fun input =>
  match input with
  | [] => .incomplete
  | 32 :: rest => digitByte rest
  | _ => (digitByte input).and fun r d1 => (digitByte r).and fun r2 d2 => .ok r2 (d1 * 10 + d2)

def twoDigits : Parser Nat := fun input =>
  (digitByte input).and fun r d1 => (digitByte r).and fun r2 d2 => .ok r2 (d1 * 10 + d2)

def mkDateTime (od : Option Date) (h mi s : Nat) (neg : Bool) (z : Nat) : Option DateTime :=
  match od with
  | none => none
  | some d => if h < 24 ∧ mi < 60 ∧ s < 60 then some ⟨d, h, mi, s, neg, z⟩ else none

/-- Modelled from the spec: `date-time` parses
`"dd-mon-yyyy HH:MM:SS ±zzzz"` with strict field widths; a grammar match
whose calendar date (or time field) is nominally invalid yields the value
`none` — the `Option` the APPEND parser unwraps. -/
def date_time : Parser (Option DateTime) := fun input =>
  (tagB [34] input).and fun r0 _ =>
  (dtDay r0).and fun r1 d =>
  (tagB [45] r1).and fun r2 _ =>
  (takeWhile1 isAlpha r2).and fun r3 ms =>
  if ms.length ≠ 3 then .error else
  match monthFromBytes ms with
  | none => .error
  | some mo =>
    (tagB [45] r3).and fun r4 _ =>
    (twoDigits r4).and fun r5 y12 =>
    (twoDigits r5).and fun r6 y34 =>
    (sp r6).and fun r7 _ =>
    (twoDigits r7).and fun r8 hh =>
    (tagB [58] r8).and fun r9 _ =>
    (twoDigits r9).and fun r10 mi =>
    (tagB [58] r10).and fun r11 _ =>
    (twoDigits r11).and fun r12 ss =>
    (sp r12).and fun r13 _ =>
    (palt (pvalue false (tagB [43])) (pvalue true (tagB [45])) r13).and fun r14 neg =>
    (twoDigits r14).and fun r15 z12 =>
    (twoDigits r15).and fun r16 z34 =>
    (tagB [34] r16).and fun r17 _ =>
    .ok r17 (mkDateTime (mkDate d mo (y12 * 100 + y34)) hh mi ss neg (z12 * 100 + z34))

/-- The SASL mechanism name of AUTHENTICATE. -/
structure AuthMechanism where
  name : List Nat

/-- Modelled from the spec: `auth-type` is an atom naming the mechanism. -/
def auth_type : Parser AuthMechanism := pmap atom AuthMechanism.mk

def isBase64Char (b : Nat) : Bool := isAlpha b || isDigit b || b = 43 || b = 47

/-- Modelled from the spec: `base64` is one or more groups of four
BASE64-CHAR, the last group optionally completed by `=` or `==`, returned
as the raw text. -/
def base64 : Parser (List Nat) := fun input =>
  (takeWhile1 isBase64Char input).and fun r cs =>
    if cs.length % 4 = 0 then .ok r cs
    else if cs.length % 4 = 3 then (tagB [61] r).and fun r2 _ => .ok r2 (cs ++ [61])
    else if cs.length % 4 = 2 then (tagB [61, 61] r).and fun r2 _ => .ok r2 (cs ++ [61, 61])
    else .error

/-! ### Sections and fetch items (data model from the spec, parser from
`src/parse/command.rs` where present) -/

/-- Section specifier inside `BODY[...]`. -/
inductive SectionText where
  | header
  | headerFields (fields : List AString)
  | headerFieldsNot (fields : List AString)
  | text
  | mime

/-- A section: message-level specifier, or a part path with an optional
trailing specifier. -/
inductive SectionVal where
  | msgtext (t : SectionText)
  | part (path : List Nat) (t : Option SectionText)

/-- `header-fld-name = astring`. -/
def header_fld_name : Parser AString := astring

/-- Modelled from the spec: `header-list = "(" header-fld-name *(SP
header-fld-name) ")"`. -/
def headerList : Parser (List AString) := fun input =>
  (tagB [40] input).and fun r1 _ =>
  (sepNonF r1.length sp header_fld_name r1).and fun r2 l =>
  (tagB [41] r2).and fun r3 _ => .ok r3 l

/-- Modelled from the spec: message-level section specifiers, longest
keyword first. -/
def sectionMsgtext : Parser SectionText :=
  palt (fun input =>
    (tagNoCase (str2b "HEADER.FIELDS.NOT") input).and fun r _ =>
    (sp r).and fun r2 _ =>
    (headerList r2).and fun r3 l => .ok r3 (SectionText.headerFieldsNot l))
  (palt (fun input =>
    (tagNoCase (str2b "HEADER.FIELDS") input).and fun r _ =>
    (sp r).and fun r2 _ =>
    (headerList r2).and fun r3 l => .ok r3 (SectionText.headerFields l))
  (palt (pvalue SectionText.header (tagNoCase (str2b "HEADER")))
        (pvalue SectionText.text (tagNoCase (str2b "TEXT")))))

/-- Modelled from the spec: a dotted part path with optional trailing
section-text (`MIME` only legal after a part path). -/
def sectionPartTail : Parser SectionText := fun input =>
  (tagB [46] input).and fun r _ =>
  palt sectionMsgtext (pvalue SectionText.mime (tagNoCase (str2b "MIME"))) r

def sectionPart : Parser SectionVal := fun input =>
  (sepNonF input.length (tagB [46]) nzNumber input).and fun r path =>
  match sectionPartTail r with
  | .ok r2 t => .ok r2 (SectionVal.part path (some t))
  | .error => .ok r (SectionVal.part path none)
  | .incomplete => .incomplete
  | .panic => .panic

/-- Modelled from the spec: `section = "[" [section-spec] "]"`. -/
def sectionP : Parser (Option SectionVal) := fun input =>
  (tagB [91] input).and fun r1 _ =>
  match palt (pmap sectionMsgtext SectionVal.msgtext) sectionPart r1 with
  | .ok r2 v => (tagB [93] r2).and fun r3 _ => .ok r3 (some v)
  | .error => (tagB [93] r1).and fun r3 _ => .ok r3 none
  | .incomplete => .incomplete
  | .panic => .panic

/-- The FETCH `DataItem` sum of the data model. -/
inductive DataItem where
  | Body
  | BodyExt (sec : Option SectionVal) (partial_ : Option (Nat × Nat)) (peek : Bool)
  | BodyStructure
  | Envelope
  | Flags
  | InternalDate
  | Rfc822
  | Rfc822Header
  | Rfc822Size
  | Rfc822Text
  | Uid

/-- FETCH macros. -/
inductive Macro where
  | All
  | Fast
  | Full

/-- A FETCH argument: a macro or an explicit item list (the data model
retains the distinction). -/
inductive MacroOrDataItems where
  | Macro (m : Macro)
  | DataItems (items : List DataItem)

inductive StoreType where
  | Add
  | Remove
  | Replace

inductive StoreResponse where
  | Answer
  | Silent

/-- The recursive search-key tree of the data model. -/
inductive SearchKey where
  | All
  | Answered
  | Bcc (v : AString)
  | Before (d : Date)
  | Body (v : AString)
  | Cc (v : AString)
  | Deleted
  | Flagged
  | From (v : AString)
  | Keyword (v : List Nat)
  | New
  | Old
  | On (d : Date)
  | Recent
  | Seen
  | Since (d : Date)
  | Subject (v : AString)
  | Text (v : AString)
  | To (v : AString)
  | Unanswered
  | Undeleted
  | Unflagged
  | Unkeyword (v : List Nat)
  | Unseen
  | Draft
  | Header (k : AString) (v : AString)
  | Larger (n : Nat)
  | Not (k : SearchKey)
  | Or (a b : SearchKey)
  | SentBefore (d : Date)
  | SentOn (d : Date)
  | SentSince (d : Date)
  | Smaller (n : Nat)
  | Uid (s : List Sequence)
  | Undraft
  | SequenceSet (s : List Sequence)
  | And (l : List SearchKey)

/-- The UID sub-body: a distinct tag around COPY/FETCH/SEARCH/STORE. -/
inductive CommandBodyUid where
  | Copy (sequence_set : List Sequence) (mailbox : Mailbox)
  | Fetch (sequence_set : List Sequence) (items : MacroOrDataItems)
  | Search (charset : Option (List Nat)) (criteria : SearchKey)
  | Store (sequence_set : List Sequence) (kind : StoreType) (response : StoreResponse)
      (flags : List Flag)

/-- The `CommandBody` sum of the data model. -/
inductive CommandBody where
  | Capability
  | Logout
  | Noop
  | Append (mailbox : Mailbox) (flags : Option (List Flag)) (date : Option DateTime)
      (message : List Nat)
  | Create (m : Mailbox)
  | Delete (m : Mailbox)
  | Examine (m : Mailbox)
  | List (reference : Mailbox) (mailbox : AString)
  | Lsub (reference : Mailbox) (mailbox : AString)
  | Rename (old : Mailbox) (new : Mailbox)
  | Select (m : Mailbox)
  | Status (mailbox : Mailbox) (items : List StatusAtt)
  | Subscribe (m : Mailbox)
  | Unsubscribe (m : Mailbox)
  | Idle
  | Login (username : AString) (password : AString)
  | Authenticate (mechanism : AuthMechanism) (initial_response : Option (List Nat))
  | StartTLS
  | Check
  | Close
  | Expunge
  | Copy (sequence_set : List Sequence) (mailbox : Mailbox)
  | Fetch (sequence_set : List Sequence) (items : MacroOrDataItems)
  | Store (sequence_set : List Sequence) (kind : StoreType) (response : StoreResponse)
      (flags : List Flag)
  | Uid (body : CommandBodyUid)
  | Search (charset : Option (List Nat)) (criteria : SearchKey)

/-- `Command = { tag, body }`. -/
structure Command where
  tag : List Nat
  body : CommandBody

/-! ### Command parsers, embedded from `src/parse/command.rs` -/

/-- `append = "APPEND" SP mailbox [SP flag-list] [SP date-time] SP literal`;
the source maps the parsed optional date with
`date_time.map(|maybe_date| maybe_date.unwrap())`, which panics when the
grammar matched but the calendar date was invalid (`maybe_date = None`). -/
def append : Parser CommandBody := fun input =>
  (tagNoCase (str2b "APPEND") input).and fun r1 _ =>
  (sp r1).and fun r2 _ =>
  (mailbox r2).and fun r3 mb =>
  (popt (fun i => (sp i).and fun r _ => flag_list r) r3).and fun r4 fl =>
  (popt (fun i => (sp i).and fun r _ => date_time r) r4).and fun r5 dt =>
  (sp r5).and fun r6 _ =>
  (literal r6).and fun r7 msg =>
  match dt with
  | some none => .panic
  | some (some d) => .ok r7 (CommandBody.Append mb fl (some d) msg)
  | none => .ok r7 (CommandBody.Append mb fl none msg)

/-- `create = "CREATE" SP mailbox`. -/
def create : Parser CommandBody := fun input =>
  (tagNoCase (str2b "CREATE") input).and fun r1 _ =>
  (sp r1).and fun r2 _ =>
  (mailbox r2).and fun r3 mb => .ok r3 (CommandBody.Create mb)

/-- `delete = "DELETE" SP mailbox`. -/
def delete : Parser CommandBody := fun input =>
  (tagNoCase (str2b "DELETE") input).and fun r1 _ =>
  (sp r1).and fun r2 _ =>
  (mailbox r2).and fun r3 mb => .ok r3 (CommandBody.Delete mb)

/-- `examine = "EXAMINE" SP mailbox`. -/
def examine : Parser CommandBody := fun input =>
  (tagNoCase (str2b "EXAMINE") input).and fun r1 _ =>
  (sp r1).and fun r2 _ =>
  (mailbox r2).and fun r3 mb => .ok r3 (CommandBody.Examine mb)

/-- `list = "LIST" SP mailbox SP list-mailbox`. -/
def list : Parser CommandBody := fun input =>
  (tagNoCase (str2b "LIST") input).and fun r1 _ =>
  (sp r1).and fun r2 _ =>
  (mailbox r2).and fun r3 ref =>
  (sp r3).and fun r4 _ =>
  (list_mailbox r4).and fun r5 mb => .ok r5 (CommandBody.List ref mb)

/-- `lsub = "LSUB" SP mailbox SP list-mailbox`. -/
def lsub : Parser CommandBody := fun input =>
  (tagNoCase (str2b "LSUB") input).and fun r1 _ =>
  (sp r1).and fun r2 _ =>
  (mailbox r2).and fun r3 ref =>
  (sp r3).and fun r4 _ =>
  (list_mailbox r4).and fun r5 mb => .ok r5 (CommandBody.Lsub ref mb)

/-- `rename = "RENAME" SP mailbox SP mailbox`. -/
def rename : Parser CommandBody := fun input =>
  (tagNoCase (str2b "RENAME") input).and fun r1 _ =>
  (sp r1).and fun r2 _ =>
  (mailbox r2).and fun r3 old =>
  (sp r3).and fun r4 _ =>
  (mailbox r4).and fun r5 new => .ok r5 (CommandBody.Rename old new)

/-- `select = "SELECT" SP mailbox`. -/
def select : Parser CommandBody := fun input =>
  (tagNoCase (str2b "SELECT") input).and fun r1 _ =>
  (sp r1).and fun r2 _ =>
  (mailbox r2).and fun r3 mb => .ok r3 (CommandBody.Select mb)

/-- `status = "STATUS" SP mailbox SP "(" status-att *(SP status-att) ")"`:
the source uses nom's `separated_list`, which also accepts zero items. -/
def status : Parser CommandBody := fun input =>
  (tagNoCase (str2b "STATUS") input).and fun r1 _ =>
  (sp r1).and fun r2 _ =>
  (mailbox r2).and fun r3 mb =>
  (sp r3).and fun r4 _ =>
  (tagB [40] r4).and fun r5 _ =>
  (sepListF r5.length sp status_att r5).and fun r6 items =>
  (tagB [41] r6).and fun r7 _ =>
  .ok r7 (CommandBody.Status mb items)

/-- `subscribe = "SUBSCRIBE" SP mailbox`. -/
def subscribe : Parser CommandBody := fun input =>
  (tagNoCase (str2b "SUBSCRIBE") input).and fun r1 _ =>
  (sp r1).and fun r2 _ =>
  (mailbox r2).and fun r3 mb => .ok r3 (CommandBody.Subscribe mb)

/-- `unsubscribe = "UNSUBSCRIBE" SP mailbox`. -/
def unsubscribe : Parser CommandBody := fun input =>
  (tagNoCase (str2b "UNSUBSCRIBE") input).and fun r1 _ =>
  (sp r1).and fun r2 _ =>
  (mailbox r2).and fun r3 mb => .ok r3 (CommandBody.Unsubscribe mb)

/-- RFC 2177 `IDLE`. -/
def idle : Parser CommandBody := pvalue CommandBody.Idle (tagNoCase (str2b "IDLE"))

/-- `userid = astring`. -/
def userid : Parser AString := astring

/-- `password = astring`. -/
def password : Parser AString := astring

/-- `login = "LOGIN" SP userid SP password`. -/
def login : Parser CommandBody := fun input =>
  (tagNoCase (str2b "LOGIN") input).and fun r1 _ =>
  (sp r1).and fun r2 _ =>
  (userid r2).and fun r3 u =>
  (sp r3).and fun r4 _ =>
  (password r4).and fun r5 p => .ok r5 (CommandBody.Login u p)

/-- SASL-IR `authenticate = "AUTHENTICATE" SP auth-type [SP (base64 / "=")]`:
the `=` branch is `map_res(tag("="), from_utf8)`, so it yields the literal
one-byte string `"="` inside the same `Option` that carries base64 text. -/
def authenticate : Parser (AuthMechanism × Option (List Nat)) := fun input =>
  (tagNoCase (str2b "AUTHENTICATE") input).and fun r1 _ =>
  (sp r1).and fun r2 _ =>
  (auth_type r2).and fun r3 mech =>
  (popt (fun i =>
    (sp i).and fun r _ => palt base64 (pvalue [61] (tagB [61])) r) r3).and fun r4 ir =>
  .ok r4 (mech, ir)

/-- `command-nonauth = login / authenticate / "STARTTLS"`. -/
def command_nonauth : Parser CommandBody :=
  palt login
  (palt (pmap authenticate (fun p => CommandBody.Authenticate p.1 p.2))
        (pvalue CommandBody.StartTLS (tagNoCase (str2b "STARTTLS"))))

/-- `copy = "COPY" SP sequence-set SP mailbox`. -/
def copy : Parser CommandBody := fun input =>
  (tagNoCase (str2b "COPY") input).and fun r1 _ =>
  (sp r1).and fun r2 _ =>
  (sequence_set r2).and fun r3 ss =>
  (sp r3).and fun r4 _ =>
  (mailbox r4).and fun r5 mb => .ok r5 (CommandBody.Copy ss mb)

/-- `"<" number "." nz-number ">"`, the partial byte range of BODY items. -/
def byteRange : Parser (Nat × Nat) := fun input =>
  (tagB [60] input).and fun r1 _ =>
  (number r1).and fun r2 a =>
  (tagB [46] r2).and fun r3 _ =>
  (nzNumber r3).and fun r4 b =>
  (tagB [62] r4).and fun r5 _ => .ok r5 (a, b)

/-- `fetch-att`, in the source's alternative order: ENVELOPE, FLAGS,
INTERNALDATE, BODYSTRUCTURE, BODY.PEEK section, BODY section, BODY, UID,
RFC822.HEADER, RFC822.SIZE, RFC822.TEXT.  Note there is no branch for the
bare keyword `RFC822` and none producing `DataItem.Rfc822`. -/
def fetch_att : Parser DataItem :=
  palt (pvalue DataItem.Envelope (tagNoCase (str2b "ENVELOPE")))
  (palt (pvalue DataItem.Flags (tagNoCase (str2b "FLAGS")))
  (palt (pvalue DataItem.InternalDate (tagNoCase (str2b "INTERNALDATE")))
  (palt (pvalue DataItem.BodyStructure (tagNoCase (str2b "BODYSTRUCTURE")))
  (palt (fun input =>
    (tagNoCase (str2b "BODY.PEEK") input).and fun r1 _ =>
    (sectionP r1).and fun r2 sec =>
    (popt byteRange r2).and fun r3 br =>
    .ok r3 (DataItem.BodyExt sec br true))
  (palt (fun input =>
    (tagNoCase (str2b "BODY") input).and fun r1 _ =>
    (sectionP r1).and fun r2 sec =>
    (popt byteRange r2).and fun r3 br =>
    .ok r3 (DataItem.BodyExt sec br false))
  (palt (pvalue DataItem.Body (tagNoCase (str2b "BODY")))
  (palt (pvalue DataItem.Uid (tagNoCase (str2b "UID")))
  (palt (pvalue DataItem.Rfc822Header (tagNoCase (str2b "RFC822.HEADER")))
  (palt (pvalue DataItem.Rfc822Size (tagNoCase (str2b "RFC822.SIZE")))
        (pvalue DataItem.Rfc822Text (tagNoCase (str2b "RFC822.TEXT"))))))))))))

/-- The parenthesized fetch-att list: nom's `separated_list` accepts zero
items. -/
def fetchAttList : Parser MacroOrDataItems := fun input =>
  (tagB [40] input).and fun r1 _ =>
  (sepListF r1.length sp fetch_att r1).and fun r2 l =>
  (tagB [41] r2).and fun r3 _ => .ok r3 (MacroOrDataItems.DataItems l)

/-- `fetch = "FETCH" SP sequence-set SP ("ALL" / "FULL" / "FAST" /
fetch-att / "(" fetch-att *(SP fetch-att) ")")` (source order: ALL, FAST,
FULL, single fetch-att, parenthesized list). -/
def fetch : Parser CommandBody := fun input =>
  (tagNoCase (str2b "FETCH") input).and fun r1 _ =>
  (sp r1).and fun r2 _ =>
  (sequence_set r2).and fun r3 ss =>
  (sp r3).and fun r4 _ =>
  (palt (pvalue (MacroOrDataItems.Macro Macro.All) (tagNoCase (str2b "ALL")))
   (palt (pvalue (MacroOrDataItems.Macro Macro.Fast) (tagNoCase (str2b "FAST")))
   (palt (pvalue (MacroOrDataItems.Macro Macro.Full) (tagNoCase (str2b "FULL")))
   (palt (pmap fetch_att (fun fa => MacroOrDataItems.DataItems [fa]))
         fetchAttList))) r4).and fun r5 items =>
  .ok r5 (CommandBody.Fetch ss items)

/-- `store-att-flags = (["+" / "-"] "FLAGS" [".SILENT"]) SP (flag-list /
(flag *(SP flag)))`. -/
def store_att_flags : Parser (StoreType × StoreResponse × List Flag) := fun input =>
  (popt (palt (pvalue StoreType.Add (tagNoCase [43]))
              (pvalue StoreType.Remove (tagNoCase [45]))) input).and fun r1 ot =>
  (tagNoCase (str2b "FLAGS") r1).and fun r2 _ =>
  (popt (tagNoCase (str2b ".SILENT")) r2).and fun r3 os =>
  (sp r3).and fun r4 _ =>
  (palt flag_list (fun i => sepNonF i.length sp flag i) r4).and fun r5 fs =>
  .ok r5
    (match ot with | some t => t | none => StoreType.Replace,
     match os with | some _ => StoreResponse.Silent | none => StoreResponse.Answer,
     fs)

/-- `store = "STORE" SP sequence-set SP store-att-flags`. -/
def store : Parser CommandBody := fun input =>
  (tagNoCase (str2b "STORE") input).and fun r1 _ =>
  (sp r1).and fun r2 _ =>
  (sequence_set r2).and fun r3 ss =>
  (sp r3).and fun r4 _ =>
  (store_att_flags r4).and fun r5 krf =>
  .ok r5 (CommandBody.Store ss krf.1 krf.2.1 krf.2.2)

/-- A constant search-key branch: `value(key, tag_no_case(kw))`. -/
def skConst (c : SearchKey) (kw : List Nat) : Parser SearchKey := pvalue c (tagNoCase kw)

/-- A one-argument search-key branch:
`map(tuple((tag_no_case(kw), sp, sub)), ctor)`. -/
def skArg {α : Type} (kw : List Nat) (sub : Parser α) (f : α → SearchKey) :
    Parser SearchKey := fun input =>
  (tagNoCase kw input).and fun r _ =>
  (sp r).and fun r2 _ =>
  (sub r2).and fun r3 v => .ok r3 (f v)

/-- `"HEADER" SP header-fld-name SP astring`. -/
def skHeader : Parser SearchKey := fun input =>
  (tagNoCase (str2b "HEADER") input).and fun r _ =>
  (sp r).and fun r2 _ =>
  (header_fld_name r2).and fun r3 k =>
  (sp r3).and fun r4 _ =>
  (astring r4).and fun r5 v => .ok r5 (SearchKey.Header k v)

/-- `"OR" SP search-key SP search-key` over a given sub-parser. -/
def skOr (p : Parser SearchKey) : Parser SearchKey := fun input =>
  (tagNoCase (str2b "OR") input).and fun r _ =>
  (sp r).and fun r2 _ =>
  (p r2).and fun r3 a =>
  (sp r3).and fun r4 _ =>
  (p r4).and fun r5 b => .ok r5 (SearchKey.Or a b)

/-- `"(" search-key *(SP search-key) ")"`, then the source's match on the
list length: zero is `unreachable!()`, one is unwrapped, more become `And`. -/
def skParen (p : Parser SearchKey) : Parser SearchKey := fun input =>
  (tagB [40] input).and fun r1 _ =>
  (sepNonF r1.length sp p r1).and fun r2 l =>
  (tagB [41] r2).and fun r3 _ =>
  match l with
  | [] => .panic
  | [x] => .ok r3 x
  | x :: y :: t => .ok r3 (SearchKey.And (x :: y :: t))

/-- `search-key`, in the source's alternative order (the source splits the
alternatives over two nested `alt`s only because of nom's tuple limit).
The fuel bounds the recursion depth through NOT/OR/parentheses; every
recursive call consumes input, so any fuel of at least the input length
is enough. -/
def search_keyF : Nat → Parser SearchKey
  | 0 => fun _ => .error
  | n + 1 =>
    palt (skConst .All (str2b "ALL"))
    (palt (skConst .Answered (str2b "ANSWERED"))
    (palt (skArg (str2b "BCC") astring SearchKey.Bcc)
    (palt (skArg (str2b "BEFORE") dateSome SearchKey.Before)
    (palt (skArg (str2b "BODY") astring SearchKey.Body)
    (palt (skArg (str2b "CC") astring SearchKey.Cc)
    (palt (skConst .Deleted (str2b "DELETED"))
    (palt (skConst .Flagged (str2b "FLAGGED"))
    (palt (skArg (str2b "FROM") astring SearchKey.From)
    (palt (skArg (str2b "KEYWORD") atom SearchKey.Keyword)
    (palt (skConst .New (str2b "NEW"))
    (palt (skConst .Old (str2b "OLD"))
    (palt (skArg (str2b "ON") dateSome SearchKey.On)
    (palt (skConst .Recent (str2b "RECENT"))
    (palt (skConst .Seen (str2b "SEEN"))
    (palt (skArg (str2b "SINCE") dateSome SearchKey.Since)
    (palt (skArg (str2b "SUBJECT") astring SearchKey.Subject)
    (palt (skArg (str2b "TEXT") astring SearchKey.Text)
    (palt (skArg (str2b "TO") astring SearchKey.To)
    (palt (skConst .Unanswered (str2b "UNANSWERED"))
    (palt (skConst .Undeleted (str2b "UNDELETED"))
    (palt (skConst .Unflagged (str2b "UNFLAGGED"))
    (palt (skArg (str2b "UNKEYWORD") atom SearchKey.Unkeyword)
    (palt (skConst .Unseen (str2b "UNSEEN"))
    (palt (skConst .Draft (str2b "DRAFT"))
    (palt skHeader
    (palt (skArg (str2b "LARGER") number SearchKey.Larger)
    (palt (skArg (str2b "NOT") (search_keyF n) SearchKey.Not)
    (palt (skOr (search_keyF n))
    (palt (skArg (str2b "SENTBEFORE") dateSome SearchKey.SentBefore)
    (palt (skArg (str2b "SENTON") dateSome SearchKey.SentOn)
    (palt (skArg (str2b "SENTSINCE") dateSome SearchKey.SentSince)
    (palt (skArg (str2b "SMALLER") number SearchKey.Smaller)
    (palt (skArg (str2b "UID") sequence_set SearchKey.Uid)
    (palt (skConst .Undraft (str2b "UNDRAFT"))
    (palt (pmap sequence_set SearchKey.SequenceSet)
          (skParen (search_keyF n)))))))))))))))))))))))))))))))))))))

/-- `search-key` with fuel instantiated from the input length. -/
def search_key : Parser SearchKey := fun input => search_keyF input.length input

/-- The element parser of SEARCH's `1*(SP search-key)`. -/
def searchElem : Parser SearchKey := fun i =>
  (sp i).and fun r _ => search_key r

/-- `search = "SEARCH" [SP "CHARSET" SP charset] 1*(SP search-key)`, with
the source's match on the criteria length: zero is `unreachable!()`, one
is stored unwrapped, more are combined into `And`. -/
def search : Parser CommandBody := fun input =>
  (tagNoCase (str2b "SEARCH") input).and fun r1 _ =>
  (popt (fun i =>
    (sp i).and fun r _ =>
    (tagNoCase (str2b "CHARSET") r).and fun r2 _ =>
    (sp r2).and fun r3 _ => charset r3) r1).and fun r2 cs =>
  (many1F r2.length searchElem r2).and fun r3 criteria =>
  match criteria with
  | [] => .panic
  | [x] => .ok r3 (CommandBody.Search cs x)
  | x :: y :: t => .ok r3 (CommandBody.Search cs (SearchKey.And (x :: y :: t)))

/-- The inner alternative of `uid`: `alt((copy, fetch, search, store))`. -/
def uidInner : Parser CommandBody := palt copy (palt fetch (palt search store))

/-- The wrapping match of `uid`: the catch-all arm is `unreachable!()`. -/
def toUid : CommandBody → Option CommandBodyUid
  | .Copy s m => some (.Copy s m)
  | .Fetch s i => some (.Fetch s i)
  | .Search c k => some (.Search c k)
  | .Store s k r f => some (.Store s k r f)
  | _ => none

/-- `uid = "UID" SP (copy / fetch / search / store)`, rewrapped into
`CommandBodyUid` by a match whose other arms are `unreachable!()`. -/
def uid : Parser CommandBody := fun input =>
  (tagNoCase (str2b "UID") input).and fun r1 _ =>
  (sp r1).and fun r2 _ =>
  (uidInner r2).and fun r3 cmd =>
  match toUid cmd with
  | some u => .ok r3 (CommandBody.Uid u)
  | none => .panic

/-- `command-any = "CAPABILITY" / "LOGOUT" / "NOOP"`. -/
def command_any : Parser CommandBody :=
  palt (pvalue CommandBody.Capability (tagNoCase (str2b "CAPABILITY")))
  (palt (pvalue CommandBody.Logout (tagNoCase (str2b "LOGOUT")))
        (pvalue CommandBody.Noop (tagNoCase (str2b "NOOP"))))

/-- `command-auth = append / create / delete / examine / list / lsub /
rename / select / status / subscribe / unsubscribe / idle`. -/
def command_auth : Parser CommandBody :=
  palt append
  (palt create
  (palt delete
  (palt examine
  (palt list
  (palt lsub
  (palt rename
  (palt select
  (palt status
  (palt subscribe
  (palt unsubscribe idle))))))))))

/-- `command-select = "CHECK" / "CLOSE" / "EXPUNGE" / copy / fetch /
store / uid / search`. -/
def command_select : Parser CommandBody :=
  palt (pvalue CommandBody.Check (tagNoCase (str2b "CHECK")))
  (palt (pvalue CommandBody.Close (tagNoCase (str2b "CLOSE")))
  (palt (pvalue CommandBody.Expunge (tagNoCase (str2b "EXPUNGE")))
  (palt copy
  (palt fetch
  (palt store
  (palt uid search))))))

/-- `command = tag SP (command-any / command-auth / command-nonauth /
command-select) CRLF`. -/
def command : Parser Command := fun input =>
  (tag_imap input).and fun r1 t =>
  (sp r1).and fun r2 _ =>
  (palt command_any
   (palt command_auth
   (palt command_nonauth command_select)) r2).and fun r3 body =>
  (crlf r3).and fun r4 _ =>
  .ok r4 (Command.mk t body)

/-- RFC 2177: `DONE CRLF`, parsed by a separate entry point. -/
def idle_done : Parser Unit := fun input =>
  (tagNoCase (str2b "DONE") input).and fun r1 _ =>
  (crlf r1).and fun r2 _ => .ok r2 ()

/-! ### Body structures: data model and serializers from
`src/types/body.rs`; string, list and envelope serializers modelled from
the spec (`src/types/core.rs`, `src/types/envelope.rs` and the `List1OrNil`
helpers are not in the provided sources). -/

/-- Decimal digits of a number (minimal form, no leading zeros). -/
def natBytes (n : Nat) : List Nat := str2b (toString n)

/-- A byte legal inside an IMAP quoted string (escaping `"` and `\`):
no CR, LF, NUL or non-ASCII. -/
def isQuotableByte (b : Nat) : Bool :=
  decide (b ≠ 0) && decide (b ≠ 13) && decide (b ≠ 10) && decide (b < 128)

def escapeQuoted : List Nat → List Nat
  | [] => []
  | b :: bs => (if b = 34 || b = 92 then [92, b] else [b]) ++ escapeQuoted bs

/-- Modelled from the spec: an `IString` serializes in the minimal legal
form, quoted when every byte is quotable and literal (`{N}CRLF` + bytes)
otherwise. -/
def serializeIString (s : IString) : List Nat :=
  let b := istringBytes s
  if b.all isQuotableByte then [34] ++ escapeQuoted b ++ [34]
  else [123] ++ natBytes b.length ++ [125, 13, 10] ++ b

/-- Modelled from the spec: `NString.Nil` emits `NIL`. -/
def serializeNString : NString → List Nat
  | .nil => str2b "NIL"
  | .string s => serializeIString s

def serializePairs : List (IString × IString) → List Nat
  | [] => []
  | [(k, v)] => serializeIString k ++ [32] ++ serializeIString v
  | (k, v) :: rest => serializeIString k ++ [32] ++ serializeIString v ++ [32] ++
      serializePairs rest

/-- Modelled from the spec: `List1AttributeValueOrNil` — an empty
parameter list emits `NIL` (never `()`), otherwise space-separated
key/value pairs in parentheses. -/
def serializeParamList (l : List (IString × IString)) : List Nat :=
  if l.isEmpty then str2b "NIL" else [40] ++ serializePairs l ++ [41]

def serializeSepIStrings : List IString → List Nat
  | [] => []
  | [x] => serializeIString x
  | x :: rest => serializeIString x ++ [32] ++ serializeSepIStrings rest

/-- Modelled from the spec: `List1OrNil` with a space separator. -/
def serializeList1OrNil (l : List IString) : List Nat :=
  if l.isEmpty then str2b "NIL" else [40] ++ serializeSepIStrings l ++ [41]

/-- An address of the envelope: four NString fields. -/
structure Address where
  name : NString
  adl : NString
  mailbox : NString
  host : NString

/-- The envelope: date, subject, six address lists (None emits NIL),
in-reply-to and message-id. -/
structure Envelope where
  date : NString
  subject : NString
  from_ : Option (List Address)
  sender : Option (List Address)
  reply_to : Option (List Address)
  to_ : Option (List Address)
  cc : Option (List Address)
  bcc : Option (List Address)
  in_reply_to : NString
  message_id : NString

/-- Modelled from the spec: `(<name> <adl> <mailbox> <host>)`. -/
def serializeAddress (a : Address) : List Nat :=
  [40] ++ serializeNString a.name ++ [32] ++ serializeNString a.adl ++ [32] ++
    serializeNString a.mailbox ++ [32] ++ serializeNString a.host ++ [41]

def serializeAddresses : List Address → List Nat
  | [] => []
  | a :: rest => serializeAddress a ++ serializeAddresses rest

/-- Modelled from the spec: an absent address list emits `NIL` (not `()`),
a present one emits the addresses juxtaposed in parentheses. -/
def serializeAddressList : Option (List Address) → List Nat
  | none => str2b "NIL"
  | some l => [40] ++ serializeAddresses l ++ [41]

/-- Modelled from the spec: the envelope's fixed 10-tuple. -/
def serializeEnvelope (e : Envelope) : List Nat :=
  [40] ++ serializeNString e.date ++ [32] ++ serializeNString e.subject ++ [32] ++
    serializeAddressList e.from_ ++ [32] ++ serializeAddressList e.sender ++ [32] ++
    serializeAddressList e.reply_to ++ [32] ++ serializeAddressList e.to_ ++ [32] ++
    serializeAddressList e.cc ++ [32] ++ serializeAddressList e.bcc ++ [32] ++
    serializeNString e.in_reply_to ++ [32] ++ serializeNString e.message_id ++ [41]

/-- `BasicFields` of a non-multipart body part. -/
structure BasicFields where
  parameter_list : List (IString × IString)
  id : NString
  description : NString
  content_transfer_encoding : IString
  size : Nat

/-- `BasicFields::serialize`. -/
def serializeBasicFields (b : BasicFields) : List Nat :=
  serializeParamList b.parameter_list ++ [32] ++ serializeNString b.id ++ [32] ++
    serializeNString b.description ++ [32] ++
    serializeIString b.content_transfer_encoding ++ [32] ++ natBytes b.size

/-- `SinglePartExtensionData`. -/
structure SinglePartExtensionData where
  md5 : NString
  disposition : Option (Option (IString × List (IString × IString)))
  language : Option (List IString)
  location : Option NString
  extension : List Nat

/-- `MultiPartExtensionData`. -/
structure MultiPartExtensionData where
  parameter_list : List (IString × IString)
  disposition : Option (Option (IString × List (IString × IString)))
  language : Option (List IString)
  location : Option NString
  extension : List Nat

/-- The inner disposition of the extension data: `NIL` or a parenthesized
type and parameter list. -/
def serializeDisposition : Option (IString × List (IString × IString)) → List Nat
  | some (s, param) => [40] ++ serializeIString s ++ [32] ++ serializeParamList param ++ [41]
  | none => str2b "NIL"

/-- `SinglePartExtensionData::serialize`: md5, then — each only inside the
presence of the previous — disposition, language, location and the raw
trailing extension bytes (which carry their own leading SP, unparsed). -/
def serializeSinglePartExtensionData (e : SinglePartExtensionData) : List Nat :=
  serializeNString e.md5 ++
    match e.disposition with
    | none => []
    | some dsp => [32] ++ serializeDisposition dsp ++
      match e.language with
      | none => []
      | some lang => [32] ++ serializeList1OrNil lang ++
        match e.location with
        | none => []
        | some loc => [32] ++ serializeNString loc ++
          (if e.extension.isEmpty then [] else e.extension)

/-- `MultiPartExtensionData::serialize`: parameter list, then the same
nested disposition/language/location/extension chain. -/
def serializeMultiPartExtensionData (e : MultiPartExtensionData) : List Nat :=
  serializeParamList e.parameter_list ++
    match e.disposition with
    | none => []
    | some dsp => [32] ++ serializeDisposition dsp ++
      match e.language with
      | none => []
      | some lang => [32] ++ serializeList1OrNil lang ++
        match e.location with
        | none => []
        | some loc => [32] ++ serializeNString loc ++
          (if e.extension.isEmpty then [] else e.extension)

mutual

/-- `SpecificFields`: generic, message/rfc822 and text shapes. -/
inductive SpecificFields where
  | Basic (type_ : IString) (subtype : IString)
  | Message (envelope : Envelope) (body_structure : BodyStructure) (number_of_lines : Nat)
  | Text (subtype : IString) (number_of_lines : Nat)

/-- `Body = { basic, specific }`. -/
inductive Body where
  | mk (basic : BasicFields) (specific : SpecificFields)

/-- `BodyStructure`: a single part or a multipart with nested bodies. -/
inductive BodyStructure where
  | Single (body : Body) (extension : Option SinglePartExtensionData)
  | Multi (bodies : List BodyStructure) (subtype : IString)
      (extension_data : Option MultiPartExtensionData)

end

mutual

/-- `Body::serialize`.  Note the `Message` arm emits the bytes
`"TEXT" "RFC822" ` (source line 37), not `"MESSAGE" "RFC822" `, before
the basic fields, envelope, nested structure and line count. -/
def serializeBody : Body → List Nat
  | .mk basic specific =>
    match specific with
    | .Basic type_ subtype =>
        serializeIString type_ ++ [32] ++ serializeIString subtype ++ [32] ++
          serializeBasicFields basic
    | .Message env bs lines =>
        str2b "\"TEXT\" \"RFC822\" " ++ serializeBasicFields basic ++ [32] ++
          serializeEnvelope env ++ [32] ++ serializeBodyStructure bs ++ [32] ++
          natBytes lines
    | .Text subtype lines =>
        str2b "\"TEXT\" " ++ serializeIString subtype ++ [32] ++
          serializeBasicFields basic ++ [32] ++ natBytes lines

/-- `BodyStructure::serialize`. -/
def serializeBodyStructure : BodyStructure → List Nat
  | .Single body ext =>
      [40] ++ serializeBody body ++
        (match ext with
         | some e => [32] ++ serializeSinglePartExtensionData e
         | none => []) ++ [41]
  | .Multi bodies subtype ext =>
      [40] ++ serializeBodyList bodies ++ [32] ++ serializeIString subtype ++
        (match ext with
         | some e => [32] ++ serializeMultiPartExtensionData e
         | none => []) ++ [41]

/-- The juxtaposed child bodies of a multipart. -/
def serializeBodyList : List BodyStructure → List Nat
  | [] => []
  | b :: bs => serializeBodyStructure b ++ serializeBodyList bs

end

/-! ### Body-structure parser, modelled from the spec (section 4.3):
the response-side parser files are not in the provided sources. -/

/-- Modelled from the spec: `nstring = "NIL" / string`. -/
def nstringP : Parser NString :=
  palt (pvalue NString.nil (tagNoCase (str2b "NIL"))) (pmap istring NString.string)

/-- One `key value` pair of a parameter list. -/
def paramPairP : Parser (IString × IString) := fun input =>
  (istring input).and fun r1 k =>
  (sp r1).and fun r2 _ =>
  (istring r2).and fun r3 v => .ok r3 (k, v)

/-- Modelled from the spec: a parameter list is `NIL` or parenthesized
space-separated pairs. -/
def paramListP : Parser (List (IString × IString)) :=
  palt (pvalue [] (tagNoCase (str2b "NIL")))
  (fun input =>
    (tagB [40] input).and fun r1 _ =>
    (sepNonF r1.length sp paramPairP r1).and fun r2 l =>
    (tagB [41] r2).and fun r3 _ => .ok r3 l)

/-- Modelled from the spec: the basic fields — parameter list, id,
description, content-transfer-encoding, size. -/
def basicFieldsP : Parser BasicFields := fun input =>
  (paramListP input).and fun r1 pl =>
  (sp r1).and fun r2 _ =>
  (nstringP r2).and fun r3 idv =>
  (sp r3).and fun r4 _ =>
  (nstringP r4).and fun r5 desc =>
  (sp r5).and fun r6 _ =>
  (istring r6).and fun r7 cte =>
  (sp r7).and fun r8 _ =>
  (number r8).and fun r9 sz =>
  .ok r9 (BasicFields.mk pl idv desc cte sz)

/-- Modelled from the spec: one address `(name adl mailbox host)`. -/
def addressP : Parser Address := fun input =>
  (tagB [40] input).and fun r1 _ =>
  (nstringP r1).and fun r2 n =>
  (sp r2).and fun r3 _ =>
  (nstringP r3).and fun r4 a =>
  (sp r4).and fun r5 _ =>
  (nstringP r5).and fun r6 m =>
  (sp r6).and fun r7 _ =>
  (nstringP r7).and fun r8 h =>
  (tagB [41] r8).and fun r9 _ => .ok r9 (Address.mk n a m h)

/-- Modelled from the spec: an address list is `NIL` or one or more
juxtaposed addresses in parentheses. -/
def addressListP : Parser (Option (List Address)) :=
  palt (pvalue none (tagNoCase (str2b "NIL")))
  (fun input =>
    (tagB [40] input).and fun r1 _ =>
    (many1F r1.length addressP r1).and fun r2 l =>
    (tagB [41] r2).and fun r3 _ => .ok r3 (some l))

/-- Modelled from the spec: the envelope 10-tuple. -/
def envelopeP : Parser Envelope := fun input =>
  (tagB [40] input).and fun r0 _ =>
  (nstringP r0).and fun r1 date =>
  (sp r1).and fun r2 _ =>
  (nstringP r2).and fun r3 subject =>
  (sp r3).and fun r4 _ =>
  (addressListP r4).and fun r5 from_ =>
  (sp r5).and fun r6 _ =>
  (addressListP r6).and fun r7 sender =>
  (sp r7).and fun r8 _ =>
  (addressListP r8).and fun r9 reply_to =>
  (sp r9).and fun r10 _ =>
  (addressListP r10).and fun r11 to_ =>
  (sp r11).and fun r12 _ =>
  (addressListP r12).and fun r13 cc =>
  (sp r13).and fun r14 _ =>
  (addressListP r14).and fun r15 bcc =>
  (sp r15).and fun r16 _ =>
  (nstringP r16).and fun r17 irt =>
  (sp r17).and fun r18 _ =>
  (nstringP r18).and fun r19 mid =>
  (tagB [41] r19).and fun r20 _ =>
  .ok r20 (Envelope.mk date subject from_ sender reply_to to_ cc bcc irt mid)

/-- Modelled from the spec: the body disposition — `NIL` or a
parenthesized type and parameter list. -/
def dispositionP : Parser (Option (IString × List (IString × IString))) :=
  palt (pvalue none (tagNoCase (str2b "NIL")))
  (fun input =>
    (tagB [40] input).and fun r1 _ =>
    (istring r1).and fun r2 s =>
    (sp r2).and fun r3 _ =>
    (paramListP r3).and fun r4 pl =>
    (tagB [41] r4).and fun r5 _ => .ok r5 (some (s, pl)))

/-- Modelled from the spec: the body language — `NIL` (the empty list,
which serializes back to `NIL`), a single string, or a parenthesized
list. -/
def languageP : Parser (List IString) :=
  palt (pvalue [] (tagNoCase (str2b "NIL")))
  (palt (fun input =>
    (tagB [40] input).and fun r1 _ =>
    (sepNonF r1.length sp istring r1).and fun r2 l =>
    (tagB [41] r2).and fun r3 _ => .ok r3 l)
  (pmap istring (fun s => [s])))

/-- Modelled from the spec: single-part extension data, prefix-optional:
md5, then disposition, then language, then location (the trailing
not-yet-defined extension is left unparsed and recorded empty). -/
def singleExtP : Parser SinglePartExtensionData := fun input =>
  (nstringP input).and fun r1 md5 =>
  match (fun i => (sp i).and fun r _ => dispositionP r) r1 with
  | .ok r2 dsp =>
    (match (fun i => (sp i).and fun r _ => languageP r) r2 with
     | .ok r3 lang =>
       (match (fun i => (sp i).and fun r _ => nstringP r) r3 with
        | .ok r4 loc => .ok r4 (SinglePartExtensionData.mk md5 (some dsp) (some lang) (some loc) [])
        | .error => .ok r3 (SinglePartExtensionData.mk md5 (some dsp) (some lang) none [])
        | .incomplete => .incomplete
        | .panic => .panic)
     | .error => .ok r2 (SinglePartExtensionData.mk md5 (some dsp) none none [])
     | .incomplete => .incomplete
     | .panic => .panic)
  | .error => .ok r1 (SinglePartExtensionData.mk md5 none none none [])
  | .incomplete => .incomplete
  | .panic => .panic

/-- Modelled from the spec: multi-part extension data, prefix-optional:
parameter list, then disposition, language, location. -/
def multiExtP : Parser MultiPartExtensionData := fun input =>
  (paramListP input).and fun r1 pl =>
  match (fun i => (sp i).and fun r _ => dispositionP r) r1 with
  | .ok r2 dsp =>
    (match (fun i => (sp i).and fun r _ => languageP r) r2 with
     | .ok r3 lang =>
       (match (fun i => (sp i).and fun r _ => nstringP r) r3 with
        | .ok r4 loc => .ok r4 (MultiPartExtensionData.mk pl (some dsp) (some lang) (some loc) [])
        | .error => .ok r3 (MultiPartExtensionData.mk pl (some dsp) (some lang) none [])
        | .incomplete => .incomplete
        | .panic => .panic)
     | .error => .ok r2 (MultiPartExtensionData.mk pl (some dsp) none none [])
     | .incomplete => .incomplete
     | .panic => .panic)
  | .error => .ok r1 (MultiPartExtensionData.mk pl none none none [])
  | .incomplete => .incomplete
  | .panic => .panic

/-- Modelled from the spec: the type/subtype-dependent tail of a
single-part body, over the nested body-structure parser `inner`:
`"TEXT"` expects number-of-lines after the basic fields, and
`("MESSAGE", "RFC822")` expects envelope, nested body structure and
number-of-lines. -/
def bodySpecificTail (inner : Parser BodyStructure) (type_ subtype : IString)
    (basic : BasicFields) : Parser Body := fun input =>
  if (istringBytes type_).map lowerByte = str2b "text" then
    (sp input).and fun r1 _ =>
    (number r1).and fun r2 lines =>
    .ok r2 (Body.mk basic (SpecificFields.Text subtype lines))
  else if (istringBytes type_).map lowerByte = str2b "message" ∧
      (istringBytes subtype).map lowerByte = str2b "rfc822" then
    (sp input).and fun r1 _ =>
    (envelopeP r1).and fun r2 env =>
    (sp r2).and fun r3 _ =>
    (inner r3).and fun r4 bs =>
    (sp r4).and fun r5 _ =>
    (number r5).and fun r6 lines =>
    .ok r6 (Body.mk basic (SpecificFields.Message env bs lines))
  else .ok input (Body.mk basic (SpecificFields.Basic type_ subtype))

/-- Modelled from the spec (section 4.3): a parenthesized group whose
first token is another `(` is a multipart (children collected until the
subtype string); otherwise single-part with the type/subtype dispatch of
`bodySpecificTail`.  The fuel bounds the nesting depth; any fuel of at
least the input length is enough. -/
def bodyStructP : Nat → Parser BodyStructure
  | 0 => fun _ => .error
  | fuel + 1 => fun input =>
    (tagB [40] input).and fun r1 _ =>
    match r1 with
    | 40 :: _ =>
      (many1F r1.length (bodyStructP fuel) r1).and fun r2 children =>
      (sp r2).and fun r3 _ =>
      (istring r3).and fun r4 subtype =>
      (popt (fun i => (sp i).and fun r _ => multiExtP r) r4).and fun r5 ext =>
      (tagB [41] r5).and fun r6 _ =>
      .ok r6 (BodyStructure.Multi children subtype ext)
    | _ =>
      (istring r1).and fun r2 type_ =>
      (sp r2).and fun r3 _ =>
      (istring r3).and fun r4 subtype =>
      (sp r4).and fun r5 _ =>
      (basicFieldsP r5).and fun r6 basic =>
      (bodySpecificTail (bodyStructP fuel) type_ subtype basic r6).and fun r7 body =>
      (popt (fun i => (sp i).and fun r _ => singleExtP r) r7).and fun r8 ext =>
      (tagB [41] r8).and fun r9 _ =>
      .ok r9 (BodyStructure.Single body ext)

/-! ### Derived predicates and concrete values used by the theorems -/

mutual

/-- The invariant of spec section 3: every `And` node of a search-key tree
has at least two children. -/
def andInv : SearchKey → Bool
  | .Not k => andInv k
  | .Or a b => andInv a && andInv b
  | .And l => decide (2 ≤ l.length) && andInvList l
  | _ => true

def andInvList : List SearchKey → Bool
  | [] => true
  | k :: rest => andInv k && andInvList rest

end

/-- An all-NIL envelope. -/
def envNil : Envelope :=
  Envelope.mk NString.nil NString.nil none none none none none none NString.nil NString.nil

/-- Basic fields `NIL NIL NIL "7bit" 123`. -/
def basic123 : BasicFields :=
  BasicFields.mk [] NString.nil NString.nil (IString.quoted (str2b "7bit")) 123

/-- Basic fields `NIL NIL NIL "7bit" 31`. -/
def basic31 : BasicFields :=
  BasicFields.mk [] NString.nil NString.nil (IString.quoted (str2b "7bit")) 31

/-- The text/plain part nested inside the message/rfc822 example. -/
def innerTextPart : BodyStructure :=
  BodyStructure.Single
    (Body.mk basic31 (SpecificFields.Text (IString.quoted (str2b "PLAIN")) 2)) none

/-- A message/rfc822 `Body` value. -/
def msgBody : Body := Body.mk basic123 (SpecificFields.Message envNil innerTextPart 6)

/-- A wire-format message/rfc822 body structure, exactly the shape of the
trace in the `SpecificFields::Message` doc comment of `src/types/body.rs`. -/
def rtInput : List Nat := str2b "(\"MESSAGE\" \"RFC822\" NIL NIL NIL \"7bit\" 123 (NIL NIL NIL NIL NIL NIL NIL NIL NIL NIL) (\"TEXT\" \"PLAIN\" NIL NIL NIL \"7bit\" 31 2) 6)"

/-- The data-model value `rtInput` parses to. -/
def rtValue : BodyStructure := BodyStructure.Single msgBody none

/-- Single-part extension data with absent disposition but present
language, location and extension bytes. -/
def spExtNoDsp : SinglePartExtensionData :=
  SinglePartExtensionData.mk (NString.string (IString.quoted (str2b "md5md5")))
    none (some [IString.quoted (str2b "en")])
    (some (NString.string (IString.quoted (str2b "loc")))) (str2b " junk")

/-- Multi-part extension data with absent disposition but present
language, location and extension bytes. -/
def mpExtNoDsp : MultiPartExtensionData :=
  MultiPartExtensionData.mk [(IString.quoted (str2b "BOUNDARY"), IString.quoted (str2b "xxx"))]
    none (some [IString.quoted (str2b "en")])
    (some (NString.string (IString.quoted (str2b "loc")))) (str2b " junk")

/-! ### Inversion lemmas for the combinators -/

theorem PResult.and_ok {α β : Type} {r : PResult α} {f : List Nat → α → PResult β}
    {rest : List Nat} {v : β} (h : r.and f = .ok rest v) :
    ∃ r' v', r = .ok r' v' ∧ f r' v' = .ok rest v := by
  cases r with
  | ok r' v' => exact ⟨r', v', rfl, h⟩
  | error => exact absurd h (by simp [PResult.and])
  | incomplete => exact absurd h (by simp [PResult.and])
  | panic => exact absurd h (by simp [PResult.and])

theorem palt_ok {α : Type} {p q : Parser α} {input rest : List Nat} {v : α}
    (h : palt p q input = .ok rest v) : p input = .ok rest v ∨ q input = .ok rest v := by
  unfold palt at h
  cases hp : p input with
  | ok r w => rw [hp] at h; exact Or.inl h
  | error => rw [hp] at h; exact Or.inr h
  | incomplete => rw [hp] at h; exact absurd h (by simp)
  | panic => rw [hp] at h; exact absurd h (by simp)

theorem pvalue_ok {α β : Type} {c : β} {p : Parser α} {input rest : List Nat} {v : β}
    (h : pvalue c p input = .ok rest v) : v = c := by
  unfold pvalue at h
  obtain ⟨r, w, _, h2⟩ := PResult.and_ok h
  cases h2
  rfl

theorem pmap_ok {α β : Type} {p : Parser α} {f : α → β} {input rest : List Nat} {v : β}
    (h : pmap p f input = .ok rest v) : ∃ w, p input = .ok rest w ∧ v = f w := by
  unfold pmap at h
  obtain ⟨r, w, h1, h2⟩ := PResult.and_ok h
  cases h2
  exact ⟨w, h1, rfl⟩

theorem tagNoCase_self_append : ∀ t rest : List Nat, tagNoCase t (t ++ rest) = .ok rest () := by
  intro t
  induction t with
  | nil => intro rest; rfl
  | cons c cs ih => intro rest; simp [tagNoCase, ih]

theorem sp_cons (rest : List Nat) : sp (32 :: rest) = .ok rest () := rfl

/-- Every element of a list produced by `sepTailF` is an output of the
element parser. -/
theorem sepTailF_mem {α : Type} {sep : Parser Unit} {f : Parser α} {P : α → Prop}
    (hf : ∀ i r v, f i = .ok r v → P v) :
    ∀ fuel input rest l, sepTailF sep f fuel input = .ok rest l → ∀ x ∈ l, P x := by
  intro fuel
  induction fuel with
  | zero =>
    intro input rest l h x hx
    have h' : (PResult.ok input [] : PResult (List α)) = .ok rest l := h
    cases h'
    cases hx
  | succ n ih =>
    intro input rest l h x hx
    unfold sepTailF at h
    split at h
    · split at h
      · rename_i r1 u hs r2 v hfe
        obtain ⟨r3, vs, h1, h2⟩ := PResult.and_ok h
        cases h2
        cases hx with
        | head => exact hf _ _ _ hfe
        | tail _ hx => exact ih _ _ _ h1 x hx
      · cases h; cases hx
      · cases h
      · cases h
    · cases h; cases hx
    · cases h
    · cases h

/-- Every element of a `sepNonF` result is an output of the element
parser. -/
theorem sepNonF_mem {α : Type} {sep : Parser Unit} {f : Parser α} {P : α → Prop}
    (hf : ∀ i r v, f i = .ok r v → P v)
    {fuel : Nat} {input rest : List Nat} {l : List α}
    (h : sepNonF fuel sep f input = .ok rest l) : ∀ x ∈ l, P x := by
  unfold sepNonF at h
  obtain ⟨r1, v, h1, h⟩ := PResult.and_ok h
  obtain ⟨r2, vs, h2, h3⟩ := PResult.and_ok h
  cases h3
  intro x hx
  cases hx with
  | head => exact hf _ _ _ h1
  | tail _ hx => exact sepTailF_mem hf _ _ _ _ h2 x hx

/-- Every element of a `manyTailF` result is an output of the element
parser. -/
theorem manyTailF_mem {α : Type} {f : Parser α} {P : α → Prop}
    (hf : ∀ i r v, f i = .ok r v → P v) :
    ∀ fuel input rest l, manyTailF f fuel input = .ok rest l → ∀ x ∈ l, P x := by
  intro fuel
  induction fuel with
  | zero =>
    intro input rest l h x hx
    have h' : (PResult.ok input [] : PResult (List α)) = .ok rest l := h
    cases h'
    cases hx
  | succ n ih =>
    intro input rest l h x hx
    unfold manyTailF at h
    split at h
    · rename_i r1 v hfe
      obtain ⟨r2, vs, h1, h2⟩ := PResult.and_ok h
      cases h2
      cases hx with
      | head => exact hf _ _ _ hfe
      | tail _ hx => exact ih _ _ _ h1 x hx
    · cases h; cases hx
    · cases h
    · cases h

/-- Every element of a `many1F` result is an output of the element
parser. -/
theorem many1F_mem {α : Type} {f : Parser α} {P : α → Prop}
    (hf : ∀ i r v, f i = .ok r v → P v)
    {fuel : Nat} {input rest : List Nat} {l : List α}
    (h : many1F fuel f input = .ok rest l) : ∀ x ∈ l, P x := by
  unfold many1F at h
  obtain ⟨r1, v, h1, h⟩ := PResult.and_ok h
  obtain ⟨r2, vs, h2, h3⟩ := PResult.and_ok h
  cases h3
  intro x hx
  cases hx with
  | head => exact hf _ _ _ h1
  | tail _ hx => exact manyTailF_mem hf _ _ _ _ h2 x hx

/-! ### Inversion lemmas for the search-key branches -/

theorem skConst_ok {c : SearchKey} {kw input rest : List Nat} {k : SearchKey}
    (h : skConst c kw input = .ok rest k) : k = c := pvalue_ok h

theorem skArg_ok {α : Type} {kw : List Nat} {sub : Parser α} {f : α → SearchKey}
    {input rest : List Nat} {k : SearchKey} (h : skArg kw sub f input = .ok rest k) :
    ∃ i r v, sub i = .ok r v ∧ k = f v := by
  unfold skArg at h
  obtain ⟨r1, u1, h1, h⟩ := PResult.and_ok h
  obtain ⟨r2, u2, h2, h⟩ := PResult.and_ok h
  obtain ⟨r3, v, h3, h⟩ := PResult.and_ok h
  cases h
  exact ⟨r2, rest, v, h3, rfl⟩

theorem skHeader_ok {input rest : List Nat} {k : SearchKey}
    (h : skHeader input = .ok rest k) : ∃ a b, k = SearchKey.Header a b := by
  unfold skHeader at h
  obtain ⟨r1, u1, h1, h⟩ := PResult.and_ok h
  obtain ⟨r2, u2, h2, h⟩ := PResult.and_ok h
  obtain ⟨r3, a, h3, h⟩ := PResult.and_ok h
  obtain ⟨r4, u4, h4, h⟩ := PResult.and_ok h
  obtain ⟨r5, b, h5, h⟩ := PResult.and_ok h
  cases h
  exact ⟨a, b, rfl⟩

theorem skOr_ok {p : Parser SearchKey} {input rest : List Nat} {k : SearchKey}
    (h : skOr p input = .ok rest k) :
    ∃ i1 r1 a i2 r2 b, p i1 = .ok r1 a ∧ p i2 = .ok r2 b ∧ k = SearchKey.Or a b := by
  unfold skOr at h
  obtain ⟨r1, u1, h1, h⟩ := PResult.and_ok h
  obtain ⟨r2, u2, h2, h⟩ := PResult.and_ok h
  obtain ⟨r3, a, h3, h⟩ := PResult.and_ok h
  obtain ⟨r4, u4, h4, h⟩ := PResult.and_ok h
  obtain ⟨r5, b, h5, h⟩ := PResult.and_ok h
  cases h
  exact ⟨r2, r3, a, r4, rest, b, h3, h5, rfl⟩

/-- The parenthesized branch: either a singleton was unwrapped, or an
`And` of at least two keys was built; in both cases every key is an
output of the sub-parser. -/
theorem skParen_ok {p : Parser SearchKey} {input rest : List Nat} {k : SearchKey}
    (h : skParen p input = .ok rest k) :
    ∃ l, (∀ x ∈ l, ∃ i r, p i = .ok r x) ∧
      (l = [k] ∨ (2 ≤ l.length ∧ k = SearchKey.And l)) := by
  unfold skParen at h
  obtain ⟨r1, u1, h1, h⟩ := PResult.and_ok h
  obtain ⟨r2, l, h2, h⟩ := PResult.and_ok h
  obtain ⟨r3, u3, h3, h⟩ := PResult.and_ok h
  have hmem : ∀ x ∈ l, ∃ i r, p i = .ok r x :=
    sepNonF_mem (P := fun x => ∃ i r, p i = .ok r x)
      (fun i r v hv => ⟨i, r, hv⟩) h2
  match l, h with
  | [x], h => exact ⟨[x], hmem, by cases h; exact Or.inl rfl⟩
  | x :: y :: t, h =>
    exact ⟨x :: y :: t, hmem, by cases h; exact Or.inr ⟨by simp, rfl⟩⟩

/-- A list whose members all satisfy the invariant satisfies `andInvList`. -/
theorem andInvList_of_mem : ∀ l : List SearchKey, (∀ x ∈ l, andInv x = true) → andInvList l = true := by
  intro l
  induction l with
  | nil => intro _; rfl
  | cons a t iht =>
    intro hall
    simp [andInvList, hall a (by simp)]
    exact iht (fun x hx => hall x (by simp [hx]))

/-- Parsed search keys satisfy the `And`-arity invariant, for every fuel. -/
theorem search_keyF_andInv :
    ∀ fuel input rest k, search_keyF fuel input = .ok rest k → andInv k = true := by
  intro fuel
  induction fuel with
  | zero => intro input rest k h; simp [search_keyF] at h
  | succ n ih =>
    intro input rest k h
    rw [search_keyF] at h
    rcases palt_ok h with h | h
    · obtain rfl := skConst_ok h; rfl
    rcases palt_ok h with h | h
    · obtain rfl := skConst_ok h; rfl
    rcases palt_ok h with h | h
    · obtain ⟨_, _, _, _, rfl⟩ := skArg_ok h; rfl
    rcases palt_ok h with h | h
    · obtain ⟨_, _, _, _, rfl⟩ := skArg_ok h; rfl
    rcases palt_ok h with h | h
    · obtain ⟨_, _, _, _, rfl⟩ := skArg_ok h; rfl
    rcases palt_ok h with h | h
    · obtain ⟨_, _, _, _, rfl⟩ := skArg_ok h; rfl
    rcases palt_ok h with h | h
    · obtain rfl := skConst_ok h; rfl
    rcases palt_ok h with h | h
    · obtain rfl := skConst_ok h; rfl
    rcases palt_ok h with h | h
    · obtain ⟨_, _, _, _, rfl⟩ := skArg_ok h; rfl
    rcases palt_ok h with h | h
    · obtain ⟨_, _, _, _, rfl⟩ := skArg_ok h; rfl
    rcases palt_ok h with h | h
    · obtain rfl := skConst_ok h; rfl
    rcases palt_ok h with h | h
    · obtain rfl := skConst_ok h; rfl
    rcases palt_ok h with h | h
    · obtain ⟨_, _, _, _, rfl⟩ := skArg_ok h; rfl
    rcases palt_ok h with h | h
    · obtain rfl := skConst_ok h; rfl
    rcases palt_ok h with h | h
    · obtain rfl := skConst_ok h; rfl
    rcases palt_ok h with h | h
    · obtain ⟨_, _, _, _, rfl⟩ := skArg_ok h; rfl
    rcases palt_ok h with h | h
    · obtain ⟨_, _, _, _, rfl⟩ := skArg_ok h; rfl
    rcases palt_ok h with h | h
    · obtain ⟨_, _, _, _, rfl⟩ := skArg_ok h; rfl
    rcases palt_ok h with h | h
    · obtain ⟨_, _, _, _, rfl⟩ := skArg_ok h; rfl
    rcases palt_ok h with h | h
    · obtain rfl := skConst_ok h; rfl
    rcases palt_ok h with h | h
    · obtain rfl := skConst_ok h; rfl
    rcases palt_ok h with h | h
    · obtain rfl := skConst_ok h; rfl
    rcases palt_ok h with h | h
    · obtain ⟨_, _, _, _, rfl⟩ := skArg_ok h; rfl
    rcases palt_ok h with h | h
    · obtain rfl := skConst_ok h; rfl
    rcases palt_ok h with h | h
    · obtain rfl := skConst_ok h; rfl
    rcases palt_ok h with h | h
    · obtain ⟨a, b, rfl⟩ := skHeader_ok h; rfl
    rcases palt_ok h with h | h
    · obtain ⟨_, _, _, _, rfl⟩ := skArg_ok h; rfl
    rcases palt_ok h with h | h
    · obtain ⟨i1, r1, v, hsub, rfl⟩ := skArg_ok h
      simpa [andInv] using ih _ _ _ hsub
    rcases palt_ok h with h | h
    · obtain ⟨i1, r1, a, i2, r2, b, ha, hb, rfl⟩ := skOr_ok h
      simp [andInv, ih _ _ _ ha, ih _ _ _ hb]
    rcases palt_ok h with h | h
    · obtain ⟨_, _, _, _, rfl⟩ := skArg_ok h; rfl
    rcases palt_ok h with h | h
    · obtain ⟨_, _, _, _, rfl⟩ := skArg_ok h; rfl
    rcases palt_ok h with h | h
    · obtain ⟨_, _, _, _, rfl⟩ := skArg_ok h; rfl
    rcases palt_ok h with h | h
    · obtain ⟨_, _, _, _, rfl⟩ := skArg_ok h; rfl
    rcases palt_ok h with h | h
    · obtain ⟨_, _, _, _, rfl⟩ := skArg_ok h; rfl
    rcases palt_ok h with h | h
    · obtain rfl := skConst_ok h; rfl
    rcases palt_ok h with h | h
    · obtain ⟨w, _, rfl⟩ := pmap_ok h; rfl
    · obtain ⟨l, hmem, hl⟩ := skParen_ok h
      have hall : ∀ x ∈ l, andInv x = true := by
        intro x hx
        obtain ⟨i, r, hir⟩ := hmem x hx
        exact ih _ _ _ hir
      rcases hl with rfl | ⟨hlen, rfl⟩
      · exact hall k (by simp)
      · simp [andInv, hlen, andInvList_of_mem l hall]

/-- Each element of SEARCH's criteria list is a parsed search key, hence
satisfies the invariant. -/
theorem searchElem_andInv : ∀ i r v, searchElem i = .ok r v → andInv v = true := by
  intro i r v h
  unfold searchElem at h
  obtain ⟨r1, u1, h1, h⟩ := PResult.and_ok h
  exact search_keyF_andInv _ _ _ _ h

/-! ### Shape lemmas for the UID inner alternative -/

theorem copy_shape {input rest : List Nat} {b : CommandBody} (h : copy input = .ok rest b) :
    ∃ s m, b = CommandBody.Copy s m := by
  unfold copy at h
  obtain ⟨r1, u1, h1, h⟩ := PResult.and_ok h
  obtain ⟨r2, u2, h2, h⟩ := PResult.and_ok h
  obtain ⟨r3, ss, h3, h⟩ := PResult.and_ok h
  obtain ⟨r4, u4, h4, h⟩ := PResult.and_ok h
  obtain ⟨r5, mb, h5, h⟩ := PResult.and_ok h
  cases h
  exact ⟨ss, mb, rfl⟩

theorem fetch_shape {input rest : List Nat} {b : CommandBody} (h : fetch input = .ok rest b) :
    ∃ s i, b = CommandBody.Fetch s i := by
  unfold fetch at h
  obtain ⟨r1, u1, h1, h⟩ := PResult.and_ok h
  obtain ⟨r2, u2, h2, h⟩ := PResult.and_ok h
  obtain ⟨r3, ss, h3, h⟩ := PResult.and_ok h
  obtain ⟨r4, u4, h4, h⟩ := PResult.and_ok h
  obtain ⟨r5, items, h5, h⟩ := PResult.and_ok h
  cases h
  exact ⟨ss, items, rfl⟩

theorem store_shape {input rest : List Nat} {b : CommandBody} (h : store input = .ok rest b) :
    ∃ s k r f, b = CommandBody.Store s k r f := by
  unfold store at h
  obtain ⟨r1, u1, h1, h⟩ := PResult.and_ok h
  obtain ⟨r2, u2, h2, h⟩ := PResult.and_ok h
  obtain ⟨r3, ss, h3, h⟩ := PResult.and_ok h
  obtain ⟨r4, u4, h4, h⟩ := PResult.and_ok h
  obtain ⟨r5, krf, h5, h⟩ := PResult.and_ok h
  cases h
  exact ⟨ss, krf.1, krf.2.1, krf.2.2, rfl⟩

theorem search_shape {input rest : List Nat} {b : CommandBody} (h : search input = .ok rest b) :
    ∃ c k, b = CommandBody.Search c k := by
  unfold search at h
  obtain ⟨r1, u1, h1, h⟩ := PResult.and_ok h
  obtain ⟨r2, cs, h2, h⟩ := PResult.and_ok h
  obtain ⟨r3, criteria, h3, h⟩ := PResult.and_ok h
  rcases criteria with _ | ⟨x, _ | ⟨y, t⟩⟩
  · cases h
  · cases h; exact ⟨cs, x, rfl⟩
  · cases h; exact ⟨cs, SearchKey.And (x :: y :: t), rfl⟩

/-! ### Claim theorems -/

set_option maxRecDepth 40000 in
/-- C1: the round-trip contract `parse(serialize(v)) = (v, empty)` fails on
the code: the wire form of a message/rfc822 body structure parses to
`rtValue` (a value in the image of parse), but `BodyStructure::serialize`
emits the type token `"TEXT"` for its `Message` fields, and the serialized
bytes no longer parse — text parts expect a line count, not an envelope,
after the basic fields. -/
theorem c1_roundtrip_fails_on_message_rfc822 :
    bodyStructP rtInput.length rtInput = .ok [] rtValue ∧
    bodyStructP (serializeBodyStructure rtValue).length (serializeBodyStructure rtValue) =
      .error :=
  ⟨rfl, rfl⟩

/-- C2: `Body::serialize` on `SpecificFields::Message` emits
`"TEXT" "RFC822"` — not `"MESSAGE" "RFC822"` as the claim states — before
the basic fields, envelope, nested structure and line count. -/
theorem c2_message_body_serialized_with_text_token :
    serializeBody msgBody = str2b "\"TEXT\" \"RFC822\" NIL NIL NIL \"7bit\" 123 (NIL NIL NIL NIL NIL NIL NIL NIL NIL NIL) (\"TEXT\" \"PLAIN\" NIL NIL NIL \"7bit\" 31 2) 6" ∧
    (serializeBody msgBody).take 6 = str2b "\"TEXT\"" :=
  ⟨rfl, rfl⟩

/-- C3: `parse_command` panics: APPEND with the grammar-valid but
calendar-invalid date-time `31-Feb-2020` reaches the
`maybe_date.unwrap()` of the source and panics instead of rejecting the
input or propagating `None`. -/
theorem c3_append_unwrap_panics :
    command (str2b "a APPEND x \"31-Feb-2020 00:00:00 +0000\" {1}\r\nx\r\n") = .panic ∧
    append (str2b "APPEND x \"31-Feb-2020 00:00:00 +0000\" {1}\r\nx") = .panic :=
  ⟨rfl, rfl⟩

/-- C4: `STATUS inbox ()` parses successfully to a `Status` with an empty
attribute list — the source's `separated_list` accepts zero items, against
the non-empty list of the claim and of the parser's own ABNF comment. -/
theorem c4_status_accepts_empty_attribute_list :
    status (str2b "STATUS inbox ()") = .ok [] (CommandBody.Status Mailbox.inbox []) ∧
    command (str2b "a STATUS inbox ()\r\n") =
      .ok [] (Command.mk (str2b "a") (CommandBody.Status Mailbox.inbox [])) :=
  ⟨rfl, rfl⟩

/-- C5, counterexample: the parsed initial response of
`AUTHENTICATE PLAIN =` is a plain `some` of the literal byte string `"="`
— the empty initial response is carried inside the single
`Option` that also carries base64 content, not as a dedicated
empty/nested-option marker, so the model does collapse to a single
`Option`. -/
theorem c5_counterexample_empty_ir_is_plain_some :
    ∃ s : List Nat,
      authenticate (str2b "AUTHENTICATE PLAIN =") =
        .ok [] (AuthMechanism.mk (str2b "PLAIN"), some s) :=
  ⟨str2b "=", rfl⟩

/-- C5, amended: the parser distinguishes absent (`none`), empty
(`some "="`, the literal `=` byte kept as the payload) and non-empty
base64 (`some text`) initial responses, within a single `Option`. -/
theorem c5_amended_empty_versus_absent :
    authenticate (str2b "AUTHENTICATE PLAIN =") =
      .ok [] (AuthMechanism.mk (str2b "PLAIN"), some (str2b "=")) ∧
    authenticate (str2b "AUTHENTICATE PLAIN\r\n") =
      .ok (str2b "\r\n") (AuthMechanism.mk (str2b "PLAIN"), none) ∧
    authenticate (str2b "AUTHENTICATE PLAIN QUJD\r\n") =
      .ok (str2b "\r\n") (AuthMechanism.mk (str2b "PLAIN"), some (str2b "QUJD")) ∧
    command_nonauth (str2b "AUTHENTICATE PLAIN =") =
      .ok [] (CommandBody.Authenticate (AuthMechanism.mk (str2b "PLAIN"))
        (some (str2b "="))) ∧
    (some (str2b "=") : Option (List Nat)) ≠ none :=
  ⟨rfl, rfl, rfl, rfl, by simp⟩

/-- C6: every search-key tree produced by parsing a SEARCH command
satisfies the `And`-arity invariant; a single top-level key and a
parenthesized single key are stored unwrapped, multiple top-level keys
are combined into `And`. -/
theorem c6_search_and_arity :
    (∀ input rest cs k, search input = .ok rest (CommandBody.Search cs k) →
      andInv k = true) ∧
    search (str2b "search ALL\r\n") =
      .ok (str2b "\r\n") (CommandBody.Search none SearchKey.All) ∧
    search (str2b "search (ALL)\r\n") =
      .ok (str2b "\r\n") (CommandBody.Search none SearchKey.All) ∧
    search (str2b "search ALL SEEN\r\n") =
      .ok (str2b "\r\n")
        (CommandBody.Search none (SearchKey.And [SearchKey.All, SearchKey.Seen])) := by
  refine ⟨?_, rfl, rfl, rfl⟩
  intro input rest cs k h
  unfold search at h
  obtain ⟨r1, u1, h1, h⟩ := PResult.and_ok h
  obtain ⟨r2, cs0, h2, h⟩ := PResult.and_ok h
  obtain ⟨r3, criteria, h3, h⟩ := PResult.and_ok h
  have hmem : ∀ x ∈ criteria, andInv x = true :=
    many1F_mem (P := fun v => andInv v = true) searchElem_andInv h3
  rcases criteria with _ | ⟨x, _ | ⟨y, t⟩⟩
  · cases h
  · simp only [PResult.ok.injEq, CommandBody.Search.injEq] at h
    obtain ⟨-, -, hk⟩ := h
    subst hk
    exact hmem x (by simp)
  · simp only [PResult.ok.injEq, CommandBody.Search.injEq] at h
    obtain ⟨-, -, hk⟩ := h
    subst hk
    simp [andInv, andInvList_of_mem _ hmem]

/-- C6 witness: the invariant at the concrete parse of
`search ALL SEEN`. -/
theorem c6_witness : andInv (SearchKey.And [SearchKey.All, SearchKey.Seen]) = true :=
  c6_search_and_arity.1 (str2b "search ALL SEEN\r\n") (str2b "\r\n") none
    (SearchKey.And [SearchKey.All, SearchKey.Seen]) rfl

/-- C7: extension-data serialization is prefix-optional — when the
disposition is absent, the output is exactly the md5 (single-part) or
parameter list (multi-part), so no language, location or trailing
extension bytes appear even if those fields are present. -/
theorem c7_extension_fields_prefix_optional :
    (∀ e : SinglePartExtensionData, e.disposition = none →
      serializeSinglePartExtensionData e = serializeNString e.md5) ∧
    (∀ e : MultiPartExtensionData, e.disposition = none →
      serializeMultiPartExtensionData e = serializeParamList e.parameter_list) := by
  constructor
  · intro e hd
    unfold serializeSinglePartExtensionData
    rw [hd]
    simp
  · intro e hd
    unfold serializeMultiPartExtensionData
    rw [hd]
    simp

/-- C7 witness: concrete extension values with absent disposition but
present language, location and extension bytes serialize to the head
field alone. -/
theorem c7_witness :
    serializeSinglePartExtensionData spExtNoDsp = serializeNString spExtNoDsp.md5 ∧
    serializeMultiPartExtensionData mpExtNoDsp = serializeParamList mpExtNoDsp.parameter_list :=
  ⟨c7_extension_fields_prefix_optional.1 spExtNoDsp rfl,
   c7_extension_fields_prefix_optional.2 mpExtNoDsp rfl⟩

/-- C8: the fetch-att parser rejects the bare keyword `RFC822` (no
alternative matches it and no `DataItem::Rfc822` is ever produced), while
the dotted forms parse, case-insensitively. -/
theorem c8_bare_rfc822_not_accepted :
    fetch_att (str2b "RFC822 ") = .error ∧
    fetch_att (str2b "RFC822\r\n") = .error ∧
    fetch_att (str2b "RFC822.HEADER ") = .ok (str2b " ") DataItem.Rfc822Header ∧
    fetch_att (str2b "RFC822.SIZE ") = .ok (str2b " ") DataItem.Rfc822Size ∧
    fetch_att (str2b "RFC822.TEXT ") = .ok (str2b " ") DataItem.Rfc822Text ∧
    fetch_att (str2b "rfc822.header ") = .ok (str2b " ") DataItem.Rfc822Header :=
  ⟨rfl, rfl, rfl, rfl, rfl, rfl⟩

/-- C9: whenever the inner alternative of `uid` succeeds, its value is a
Copy, Fetch, Search or Store body, so the `unreachable!()` arm of the
wrapping match (`toUid _ = none`) is never reached. -/
theorem c9_uid_inner_only_wrappable :
    ∀ input rest b, uidInner input = .ok rest b → (toUid b).isSome = true := by
  intro input rest b h
  rcases palt_ok h with h | h
  · obtain ⟨s, m, rfl⟩ := copy_shape h; rfl
  rcases palt_ok h with h | h
  · obtain ⟨s, i, rfl⟩ := fetch_shape h; rfl
  rcases palt_ok h with h | h
  · obtain ⟨c, k, rfl⟩ := search_shape h; rfl
  · obtain ⟨s, k2, r2, f2, rfl⟩ := store_shape h; rfl

/-- C9 witness: the concrete inner parse of `COPY 1 x` yields a wrappable
body. -/
theorem c9_witness :
    (toUid (CommandBody.Copy [Sequence.single (SeqNo.value 1)]
      (Mailbox.other (AString.atom (str2b "x"))))).isSome = true :=
  c9_uid_inner_only_wrappable (str2b "COPY 1 x ") (str2b " ")
    (CommandBody.Copy [Sequence.single (SeqNo.value 1)]
      (Mailbox.other (AString.atom (str2b "x")))) rfl

/-- C10: for every sequence set, `FETCH <set> ()` parses successfully to a
`Fetch` whose items are `DataItems []` — the empty parenthesized list is
accepted, not rejected. -/
theorem c10_fetch_accepts_empty_item_list :
    ∀ (s : List Nat) (ss : List Sequence),
      sequence_set (s ++ str2b " ()") = .ok (str2b " ()") ss →
      fetch (str2b "FETCH " ++ s ++ str2b " ()") =
        .ok [] (CommandBody.Fetch ss (MacroOrDataItems.DataItems [])) := by
  intro s ss h
  have e : str2b "FETCH " ++ s ++ str2b " ()" =
      str2b "FETCH" ++ (32 :: (s ++ str2b " ()")) := rfl
  rw [e]
  unfold fetch
  rw [tagNoCase_self_append]
  simp only [PResult.and]
  rw [sp_cons]
  simp only [PResult.and]
  rw [h]
  simp only [PResult.and]
  rfl

/-- C10 witness: the concrete instance `FETCH 1 ()`. -/
theorem c10_witness :
    fetch (str2b "FETCH " ++ str2b "1" ++ str2b " ()") =
      .ok [] (CommandBody.Fetch [Sequence.single (SeqNo.value 1)]
        (MacroOrDataItems.DataItems [])) :=
  c10_fetch_accepts_empty_item_list (str2b "1") [Sequence.single (SeqNo.value 1)] rfl

end Imap
